import Mathlib

/-!
Shallow embedding of the clang builtin-function registry
(`include/clang/Basic/Builtins.h`): the `LanguageID` bitmask, the
`Builtin::Info` descriptor record, and the `Builtin::Context` that merges
the core, target-specific and auxiliary-target builtin tables into one
flat ID space, together with the attribute-decoding predicates.

C strings are embedded as `List Char`; C `unsigned` arithmetic is `Nat`
with explicit reduction modulo `2 ^ 32` where wrap-around matters.
Member functions whose bodies are not part of the sources (only their
declarations are) are modelled from the specification and say so in
their doc comments.
-/

namespace Clang

/-- `enum LanguageID` of Builtins.h (values are the source's bit masks). -/
def GNU_LANG : Nat := 0x1

/-- `C_LANG`: builtin for C only. -/
def C_LANG : Nat := 0x2

/-- `CXX_LANG`: builtin for C++ only. -/
def CXX_LANG : Nat := 0x4

/-- `OBJC_LANG`: builtin for Objective-C and Objective-C++. -/
def OBJC_LANG : Nat := 0x8

/-- `MS_LANG`: builtin requires MS mode. -/
def MS_LANG : Nat := 0x10

/-- `OCLC_LANG`: builtin for OpenCL C only. -/
def OCLC_LANG : Nat := 0x20

/-- `ALL_LANGUAGES = C_LANG | CXX_LANG | OBJC_LANG`. -/
def ALL_LANGUAGES : Nat := C_LANG ||| CXX_LANG ||| OBJC_LANG

/-- `ALL_GNU_LANGUAGES = ALL_LANGUAGES | GNU_LANG`. -/
def ALL_GNU_LANGUAGES : Nat := ALL_LANGUAGES ||| GNU_LANG

/-- `ALL_MS_LANGUAGES = ALL_LANGUAGES | MS_LANG`. -/
def ALL_MS_LANGUAGES : Nat := ALL_LANGUAGES ||| MS_LANG

/-- C `unsigned` values live modulo `2 ^ 32`. -/
def uintMod : Nat := 2 ^ 32

/-- C `strchr` on an embedded string: the index of the first occurrence of
`c`, or `none` when `c` does not occur (the null-pointer result). -/
def strchr : List Char → Char → Option Nat
  | [], _ => none
  | a :: rest, c => if a = c then some 0 else (strchr rest c).map (· + 1)

namespace Builtin

/-- `struct Builtin::Info`: one descriptor per builtin.  The C++ field
`Type` is spelled `TypeStr` because `Type` is reserved in Lean; the
nullable `const char *HeaderName` is an `Option`. -/
structure Info where
  Name : List Char
  TypeStr : List Char
  Attributes : List Char
  HeaderName : Option (List Char)
  Langs : Nat
  Features : List Char
deriving DecidableEq

/-- Error signalled on malformed builtin IDs. -/
inductive BuiltinError where
  | InvalidBuiltinID
deriving DecidableEq

/-- `class Builtin::Context`: the core table (`BuiltinInfo`, the global
table generated from Builtins.def), the primary target's table
(`TSRecords`) and the auxiliary target's table (`AuxTSRecords`). -/
structure Context where
  BuiltinInfo : List Info
  TSRecords : List Info
  AuxTSRecords : List Info
deriving DecidableEq

namespace Context

/-- `Builtin::FirstTSBuiltin`: one past the last core ID, i.e. the size of
the core table plus one (ID 0 is `NotBuiltin`). -/
def firstTSBuiltin (ctx : Context) : Nat := ctx.BuiltinInfo.length + 1

/-- Total number of valid flat IDs `C + T + A`. -/
def totalSize (ctx : Context) : Nat :=
  ctx.BuiltinInfo.length + ctx.TSRecords.length + ctx.AuxTSRecords.length

/-- `isTSBuiltin`: `ID >= Builtin::FirstTSBuiltin`. -/
def isTSBuiltin (ctx : Context) (ID : Nat) : Bool :=
  decide (ctx.firstTSBuiltin ≤ ID)

/-- `isAuxBuiltinID`: `ID >= Builtin::FirstTSBuiltin + TSRecords.size()`. -/
def isAuxBuiltinID (ctx : Context) (ID : Nat) : Bool :=
  decide (ctx.firstTSBuiltin + ctx.TSRecords.length ≤ ID)

/-- `getAuxBuiltinID`: `return ID - TSRecords.size();` — plain unsigned
subtraction (wrapping modulo `2 ^ 32`), with no validity check. -/
def getAuxBuiltinID (ctx : Context) (ID : Nat) : Nat :=
  (uintMod + ID % uintMod - ctx.TSRecords.length % uintMod) % uintMod

/-- Modelled from the spec: the body of `Context::getRecord` (declared at
Builtins.h:206) is not among the sources.  Per §4.3, `resolve(id)` is
bounds-checked: ids in `[1, FirstTargetSpecific)` index the core table at
`id − 1`, ids in `[FirstTargetSpecific, FirstTargetSpecific + T)` index
the primary target table at `id − FirstTargetSpecific`, ids in
`[FirstTargetSpecific + T, FirstTargetSpecific + T + A)` index the
auxiliary table at `id − FirstTargetSpecific − T`, and every other id
(0 included) signals `InvalidBuiltinID`. -/
def getRecord (ctx : Context) (ID : Nat) : Except BuiltinError Info :=
  if ID = 0 then .error .InvalidBuiltinID
  else if ID < ctx.firstTSBuiltin then
    match ctx.BuiltinInfo[ID - 1]? with
    | some r => .ok r
    | none => .error .InvalidBuiltinID
  else if ID < ctx.firstTSBuiltin + ctx.TSRecords.length then
    match ctx.TSRecords[ID - ctx.firstTSBuiltin]? with
    | some r => .ok r
    | none => .error .InvalidBuiltinID
  else if ID < ctx.firstTSBuiltin + ctx.TSRecords.length + ctx.AuxTSRecords.length then
    match ctx.AuxTSRecords[ID - ctx.firstTSBuiltin - ctx.TSRecords.length]? with
    | some r => .ok r
    | none => .error .InvalidBuiltinID
  else .error .InvalidBuiltinID

/-- `getName`. -/
def getName (ctx : Context) (ID : Nat) : Except BuiltinError (List Char) :=
  (ctx.getRecord ID).map Info.Name

/-- `getTypeString`. -/
def getTypeString (ctx : Context) (ID : Nat) : Except BuiltinError (List Char) :=
  (ctx.getRecord ID).map Info.TypeStr

/-- `isPure`: `strchr(getRecord(ID).Attributes, 'U') != nullptr`. -/
def isPure (ctx : Context) (ID : Nat) : Except BuiltinError Bool :=
  (ctx.getRecord ID).map (fun r => (strchr r.Attributes 'U').isSome)

/-- `isConst`: marker `'c'`. -/
def isConst (ctx : Context) (ID : Nat) : Except BuiltinError Bool :=
  (ctx.getRecord ID).map (fun r => (strchr r.Attributes 'c').isSome)

/-- `isNoThrow`: marker `'n'`. -/
def isNoThrow (ctx : Context) (ID : Nat) : Except BuiltinError Bool :=
  (ctx.getRecord ID).map (fun r => (strchr r.Attributes 'n').isSome)

/-- `isNoReturn`: marker `'r'`. -/
def isNoReturn (ctx : Context) (ID : Nat) : Except BuiltinError Bool :=
  (ctx.getRecord ID).map (fun r => (strchr r.Attributes 'r').isSome)

/-- `isReturnsTwice`: marker `'j'`. -/
def isReturnsTwice (ctx : Context) (ID : Nat) : Except BuiltinError Bool :=
  (ctx.getRecord ID).map (fun r => (strchr r.Attributes 'j').isSome)

/-- `isUnevaluated`: marker `'u'`. -/
def isUnevaluated (ctx : Context) (ID : Nat) : Except BuiltinError Bool :=
  (ctx.getRecord ID).map (fun r => (strchr r.Attributes 'u').isSome)

/-- `isLibFunction`: marker `'F'`. -/
def isLibFunction (ctx : Context) (ID : Nat) : Except BuiltinError Bool :=
  (ctx.getRecord ID).map (fun r => (strchr r.Attributes 'F').isSome)

/-- `isPredefinedLibFunction`: marker `'f'`. -/
def isPredefinedLibFunction (ctx : Context) (ID : Nat) : Except BuiltinError Bool :=
  (ctx.getRecord ID).map (fun r => (strchr r.Attributes 'f').isSome)

/-- `isPredefinedRuntimeFunction`: marker `'i'`. -/
def isPredefinedRuntimeFunction (ctx : Context) (ID : Nat) : Except BuiltinError Bool :=
  (ctx.getRecord ID).map (fun r => (strchr r.Attributes 'i').isSome)

/-- `hasCustomTypechecking`: marker `'t'`. -/
def hasCustomTypechecking (ctx : Context) (ID : Nat) : Except BuiltinError Bool :=
  (ctx.getRecord ID).map (fun r => (strchr r.Attributes 't').isSome)

/-- `isConstWithoutErrno`: marker `'e'`. -/
def isConstWithoutErrno (ctx : Context) (ID : Nat) : Except BuiltinError Bool :=
  (ctx.getRecord ID).map (fun r => (strchr r.Attributes 'e').isSome)

/-- `hasPtrArgsOrResult`: `strchr(getRecord(ID).Type, '*') != nullptr` —
computed from the type string, not the attribute string. -/
def hasPtrArgsOrResult (ctx : Context) (ID : Nat) : Except BuiltinError Bool :=
  (ctx.getRecord ID).map (fun r => (strchr r.TypeStr '*').isSome)

/-- `getHeaderName`. -/
def getHeaderName (ctx : Context) (ID : Nat) : Except BuiltinError (Option (List Char)) :=
  (ctx.getRecord ID).map Info.HeaderName

/-- `getRequiredFeatures`. -/
def getRequiredFeatures (ctx : Context) (ID : Nat) : Except BuiltinError (List Char) :=
  (ctx.getRecord ID).map Info.Features

end Context

/-- The active dialect of `LangOptions` (C, C++, or Objective-C/C++ —
mutually exclusive). -/
inductive Dialect where
  | cDialect
  | cxxDialect
  | objcDialect
deriving DecidableEq

/-- The `LanguageID` bit a builtin's mask must contain for the dialect. -/
def Dialect.bit : Dialect → Nat
  | .cDialect => C_LANG
  | .cxxDialect => CXX_LANG
  | .objcDialect => OBJC_LANG

/-- The active language configuration (the slice of `LangOptions` the
gate consults): active dialect plus the GNU, Microsoft and OpenCL-C
extension-mode flags. -/
structure LangOptions where
  dialect : Dialect
  gnuMode : Bool
  microsoftExt : Bool
  openCL : Bool
deriving DecidableEq

namespace Context

/-- Modelled from the spec: the body of `Context::builtinIsSupported`
(declared at Builtins.h:209) is not among the sources.  Per §4.2, a
builtin is enabled iff its language mask includes the active dialect,
AND (it does not require GNU mode, or GNU mode is active), AND (it does
not require MS mode, or MS mode is active), AND (it is not OpenCL-only,
or OpenCL-C mode is active). -/
def builtinIsSupported (mask : Nat) (opts : LangOptions) : Bool :=
  decide (mask &&& opts.dialect.bit ≠ 0) &&
  (decide (mask &&& GNU_LANG = 0) || opts.gnuMode) &&
  (decide (mask &&& MS_LANG = 0) || opts.microsoftExt) &&
  (decide (mask ≠ OCLC_LANG) || opts.openCL)

end Context

/-- The external identifier table, at the interface this core requires of
it (§6): the set of identifiers currently tagged `(name → builtin id)`. -/
structure IdentifierTable where
  builtinTags : List (List Char × Nat)
deriving DecidableEq

namespace IdentifierTable

/-- Modelled from the spec (§6): `tag(name, id)` records the builtin tag. -/
def tag (t : IdentifierTable) (name : List Char) (id : Nat) : IdentifierTable :=
  ⟨(name, id) :: t.builtinTags⟩

/-- Modelled from the spec (§6): `untag(id)` removes the association for
exactly that ID. -/
def untag (t : IdentifierTable) (id : Nat) : IdentifierTable :=
  ⟨t.builtinTags.filter (fun p => p.2 != id)⟩

/-- The flat IDs currently tagged in the table. -/
def registeredIDs (t : IdentifierTable) : List Nat :=
  t.builtinTags.map Prod.snd

end IdentifierTable

namespace Context

/-- All flat IDs of this context, `1 .. C + T + A`. -/
def allIDs (ctx : Context) : List Nat := List.range' 1 ctx.totalSize

/-- One step of `initializeBuiltins`: look the flat ID up, evaluate the
language gate, and tag the name when the builtin is enabled. -/
def registerStep (ctx : Context) (opts : LangOptions)
    (acc : IdentifierTable) (id : Nat) : IdentifierTable :=
  match ctx.getRecord id with
  | .ok r => if builtinIsSupported r.Langs opts then acc.tag r.Name id else acc
  | .error _ => acc

/-- Modelled from the spec: the body of `Context::initializeBuiltins`
(declared at Builtins.h:79) is not among the sources.  Per §4.4, it walks
all three tables (every flat ID), evaluates the language gate on each
descriptor, and registers `(name → id)` in the external identifier table
for each enabled builtin. -/
def initializeBuiltins (ctx : Context) (t : IdentifierTable) (opts : LangOptions) :
    IdentifierTable :=
  ctx.allIDs.foldl (ctx.registerStep opts) t

/-- Modelled from the spec: the body of `Context::forgetBuiltin` (declared
at Builtins.h:162) is not among the sources.  Per §4.4/§7, it removes the
`(name → id)` association for exactly that ID, is a silent no-op when the
ID was never registered, and signals `InvalidBuiltinID` when the ID is
outside the valid flat range. -/
def forgetBuiltin (ctx : Context) (ID : Nat) (t : IdentifierTable) :
    Except BuiltinError IdentifierTable :=
  if 1 ≤ ID ∧ ID ≤ ctx.totalSize then .ok (t.untag ID) else .error .InvalidBuiltinID

/-- Sequencing of `forgetBuiltin` over a list of IDs. -/
def forgetAll (ctx : Context) (ids : List Nat) (t : IdentifierTable) :
    Except BuiltinError IdentifierTable :=
  match ids with
  | [] => .ok t
  | id :: rest => do
      let t2 ← ctx.forgetBuiltin id t
      ctx.forgetAll rest t2

end Context

/-- The registry façade: the read-only descriptor context together with the
mutable registration state held in the external identifier table. -/
structure Registry where
  ctx : Context
  table : IdentifierTable

/-- The two mutating operations of the registry. -/
inductive RegistryAction where
  | initAll (opts : LangOptions)
  | forgetOne (id : Nat)

/-- Apply one mutating operation; a `forgetOne` on an out-of-range ID
signals `InvalidBuiltinID` and leaves the state unchanged. -/
def Registry.applyAction (r : Registry) (a : RegistryAction) : Registry :=
  match a with
  | .initAll opts => ⟨r.ctx, r.ctx.initializeBuiltins r.table opts⟩
  | .forgetOne id =>
      match r.ctx.forgetBuiltin id r.table with
      | .ok t2 => ⟨r.ctx, t2⟩
      | .error _ => r

/-- Apply a sequence of mutating operations. -/
def Registry.applyAll (r : Registry) (acts : List RegistryAction) : Registry :=
  acts.foldl Registry.applyAction r

/-- Follows the spec's words, for comparison with the source's
`getAuxBuiltinID`: "`translateToAuxiliaryLocalID(id)`: valid only when
`isAuxiliary(id)`; returns `id − T`", and `InvalidBuiltinID` is "raised by
… `translateToAuxiliaryLocalID` (when not auxiliary)". -/
def Context.translateToAuxiliaryLocalIDSpec (ctx : Context) (ID : Nat) :
    Except BuiltinError Nat :=
  if ctx.isAuxBuiltinID ID then .ok (ID - ctx.TSRecords.length)
  else .error .InvalidBuiltinID

/-- `__builtin_abs` of the §8 scenario: portable, const + noThrow. -/
def absInfo : Info :=
  { Name := "__builtin_abs".data, TypeStr := "ii".data, Attributes := "nc".data,
    HeaderName := none, Langs := ALL_LANGUAGES, Features := [] }

/-- `__builtin_trap` of the §8 scenario: portable, noReturn + noThrow. -/
def trapInfo : Info :=
  { Name := "__builtin_trap".data, TypeStr := "v".data, Attributes := "nr".data,
    HeaderName := none, Langs := ALL_LANGUAGES, Features := [] }

/-- `__builtin_ia32_pause` of the §8 scenario: target-specific, GNU-only. -/
def pauseInfo : Info :=
  { Name := "__builtin_ia32_pause".data, TypeStr := "v".data, Attributes := "n".data,
    HeaderName := none, Langs := ALL_GNU_LANGUAGES, Features := [] }

/-- A predefined library function whose type string contains pointers. -/
def memcpyInfo : Info :=
  { Name := "memcpy".data, TypeStr := "v*v*vC*z".data, Attributes := "nf".data,
    HeaderName := some "string.h".data, Langs := ALL_LANGUAGES, Features := [] }

/-- Same type string as `memcpyInfo`, different attribute string. -/
def memcpyAltInfo : Info :=
  { Name := "__builtin_memcpy".data, TypeStr := "v*v*vC*z".data, Attributes := "nF".data,
    HeaderName := none, Langs := ALL_LANGUAGES, Features := [] }

/-- The §8 scenario context: core size 2, primary target size 1, no
auxiliary table; `FirstTSBuiltin = 3`. -/
def exCtx : Context :=
  { BuiltinInfo := [absInfo, trapInfo], TSRecords := [pauseInfo], AuxTSRecords := [] }

/-- A context with an auxiliary table: core size 1, primary target size 1,
auxiliary size 1; `FirstTSBuiltin = 2`, auxiliary IDs start at 3. -/
def exCtxAux : Context :=
  { BuiltinInfo := [absInfo], TSRecords := [pauseInfo], AuxTSRecords := [memcpyInfo] }

/-- A context whose first core entry shares `memcpyInfo`'s type string but
not its attribute string. -/
def exCtxAlt : Context :=
  { BuiltinInfo := [memcpyAltInfo], TSRecords := [], AuxTSRecords := [] }

/-- A C-dialect configuration with GNU mode on. -/
def optsGnuC : LangOptions :=
  { dialect := .cDialect, gnuMode := true, microsoftExt := false, openCL := false }

end Builtin

end Clang

namespace Clang

theorem strchr_isSome (s : List Char) (c : Char) :
    (strchr s c).isSome = decide (c ∈ s) := by
  induction s with
  | nil => rfl
  | cons a rest ih =>
    by_cases h : a = c
    · simp [strchr, h]
    · simp [strchr, h, ih, Ne.symm h]

namespace Builtin

theorem firstTSBuiltin_pos (ctx : Context) : 1 ≤ ctx.firstTSBuiltin :=
  Nat.succ_le_succ (Nat.zero_le _)

theorem getRecord_zero (ctx : Context) :
    ctx.getRecord 0 = .error .InvalidBuiltinID := by
  unfold Context.getRecord
  rw [if_pos rfl]

theorem getRecord_oob (ctx : Context) (ID : Nat)
    (h : ctx.firstTSBuiltin + ctx.TSRecords.length + ctx.AuxTSRecords.length ≤ ID) :
    ctx.getRecord ID = .error .InvalidBuiltinID := by
  have h1 := firstTSBuiltin_pos ctx
  unfold Context.getRecord
  rw [if_neg (by omega), if_neg (by omega), if_neg (by omega), if_neg (by omega)]

theorem getRecord_core (ctx : Context) (ID : Nat) (h1 : 1 ≤ ID)
    (h2 : ID < ctx.firstTSBuiltin) :
    ∃ r, ctx.BuiltinInfo[ID - 1]? = some r ∧ ctx.getRecord ID = .ok r := by
  have hlen : ID - 1 < ctx.BuiltinInfo.length := by
    unfold Context.firstTSBuiltin at h2; omega
  refine ⟨ctx.BuiltinInfo.get ⟨ID - 1, hlen⟩, List.getElem?_eq_getElem hlen, ?_⟩
  unfold Context.getRecord
  rw [if_neg (by omega), if_pos h2, List.getElem?_eq_getElem hlen]
  rfl

theorem getRecord_ts (ctx : Context) (ID : Nat)
    (h1 : ctx.firstTSBuiltin ≤ ID)
    (h2 : ID < ctx.firstTSBuiltin + ctx.TSRecords.length) :
    ∃ r, ctx.TSRecords[ID - ctx.firstTSBuiltin]? = some r ∧ ctx.getRecord ID = .ok r := by
  have h0 := firstTSBuiltin_pos ctx
  have hlen : ID - ctx.firstTSBuiltin < ctx.TSRecords.length := by omega
  refine ⟨ctx.TSRecords.get ⟨ID - ctx.firstTSBuiltin, hlen⟩, List.getElem?_eq_getElem hlen, ?_⟩
  unfold Context.getRecord
  rw [if_neg (by omega), if_neg (by omega), if_pos h2, List.getElem?_eq_getElem hlen]
  rfl

theorem getRecord_aux (ctx : Context) (ID : Nat)
    (h1 : ctx.firstTSBuiltin + ctx.TSRecords.length ≤ ID)
    (h2 : ID < ctx.firstTSBuiltin + ctx.TSRecords.length + ctx.AuxTSRecords.length) :
    ∃ r, ctx.AuxTSRecords[ID - ctx.firstTSBuiltin - ctx.TSRecords.length]? = some r ∧
      ctx.getRecord ID = .ok r := by
  have h0 := firstTSBuiltin_pos ctx
  have hlen : ID - ctx.firstTSBuiltin - ctx.TSRecords.length < ctx.AuxTSRecords.length := by
    omega
  refine ⟨ctx.AuxTSRecords.get ⟨ID - ctx.firstTSBuiltin - ctx.TSRecords.length, hlen⟩,
    List.getElem?_eq_getElem hlen, ?_⟩
  unfold Context.getRecord
  rw [if_neg (by omega), if_neg (by omega), if_neg (by omega), if_pos h2,
    List.getElem?_eq_getElem hlen]
  rfl

theorem uintMod_eq : uintMod = 4294967296 := by
  norm_num [uintMod]

theorem getAuxBuiltinID_eq_sub (ctx : Context) (ID : Nat) (hID : ID < uintMod)
    (hT : ctx.TSRecords.length ≤ ID) :
    ctx.getAuxBuiltinID ID = ID - ctx.TSRecords.length := by
  unfold Context.getAuxBuiltinID
  rw [uintMod_eq] at hID ⊢
  omega

theorem applyAction_ctx (r : Registry) (a : RegistryAction) :
    (r.applyAction a).ctx = r.ctx := by
  cases a with
  | initAll opts => rfl
  | forgetOne id =>
    show (match r.ctx.forgetBuiltin id r.table with
      | Except.ok t2 => ({ ctx := r.ctx, table := t2 } : Registry)
      | Except.error _ => r).ctx = r.ctx
    rcases h : r.ctx.forgetBuiltin id r.table with e | t2 <;> rfl

theorem applyAll_ctx (r : Registry) (acts : List RegistryAction) :
    (r.applyAll acts).ctx = r.ctx := by
  induction acts generalizing r with
  | nil => rfl
  | cons a rest ih =>
    show (Registry.applyAll (r.applyAction a) rest).ctx = r.ctx
    rw [ih (r.applyAction a), applyAction_ctx]

theorem registerStep_tags (ctx : Context) (opts : LangOptions)
    (acc : IdentifierTable) (id : Nat) (p : List Char × Nat)
    (hp : p ∈ (ctx.registerStep opts acc id).builtinTags) :
    p ∈ acc.builtinTags ∨ p.2 = id := by
  unfold Context.registerStep at hp
  split at hp
  · split at hp
    · rcases List.mem_cons.mp hp with h | h
      · right; rw [Prod.ext_iff] at h; exact h.2
      · exact Or.inl h
    · exact Or.inl hp
  · exact Or.inl hp

theorem registerFold_tags (ctx : Context) (opts : LangOptions)
    (ids : List Nat) (acc : IdentifierTable) (p : List Char × Nat)
    (hp : p ∈ (ids.foldl (ctx.registerStep opts) acc).builtinTags) :
    p ∈ acc.builtinTags ∨ p.2 ∈ ids := by
  induction ids generalizing acc with
  | nil => exact Or.inl hp
  | cons id rest ih =>
    rw [List.foldl_cons] at hp
    rcases ih (ctx.registerStep opts acc id) hp with h | h
    · rcases registerStep_tags ctx opts acc id p h with h2 | h2
      · exact Or.inl h2
      · exact Or.inr (by rw [h2]; exact List.mem_cons_self _ _)
    · exact Or.inr (List.mem_cons_of_mem _ h)

theorem initTags_range (ctx : Context) (opts : LangOptions) (p : List Char × Nat)
    (hp : p ∈ (ctx.initializeBuiltins ⟨[]⟩ opts).builtinTags) :
    1 ≤ p.2 ∧ p.2 ≤ ctx.totalSize := by
  rcases registerFold_tags ctx opts ctx.allIDs ⟨[]⟩ p hp with h | h
  · cases h
  · unfold Context.allIDs at h
    rw [List.mem_range'_1] at h
    omega

theorem forgetAll_empty (ctx : Context) (ids : List Nat) (t : IdentifierTable)
    (hv : ∀ id ∈ ids, 1 ≤ id ∧ id ≤ ctx.totalSize)
    (hc : ∀ p ∈ t.builtinTags, p.2 ∈ ids) :
    ctx.forgetAll ids t = .ok ⟨[]⟩ := by
  induction ids generalizing t with
  | nil =>
    have ht : t.builtinTags = [] :=
      List.eq_nil_iff_forall_not_mem.mpr (fun p hp => by simpa using hc p hp)
    cases t with
    | mk tags => cases ht; rfl
  | cons id rest ih =>
    have hid := hv id (List.mem_cons_self _ _)
    unfold Context.forgetAll
    rw [Context.forgetBuiltin, if_pos hid]
    show ctx.forgetAll rest (t.untag id) = .ok ⟨[]⟩
    apply ih
    · intro i hi; exact hv i (List.mem_cons_of_mem _ hi)
    · intro p hp
      unfold IdentifierTable.untag at hp
      simp only [List.mem_filter, bne_iff_ne, ne_eq] at hp
      obtain ⟨hp1, hp2⟩ := hp
      rcases List.mem_cons.mp (hc p hp1) with h | h
      · exact absurd h hp2
      · exact h

theorem untag_of_not_registered (t : IdentifierTable) (id : Nat)
    (h : id ∉ t.registeredIDs) : t.untag id = t := by
  unfold IdentifierTable.untag
  have : t.builtinTags.filter (fun p => p.2 != id) = t.builtinTags := by
    apply List.filter_eq_self.mpr
    intro p hp
    simp only [bne_iff_ne, ne_eq]
    intro hpe
    exact h (hpe ▸ List.mem_map_of_mem Prod.snd hp)
  cases t with
  | mk tags => simpa using this

/-- C1: `resolve(id)` is bounds-checked and dispatches to exactly one of
the three tables: ids in the core range index the core table at `id − 1`,
ids in the primary-target range index that table at
`id − FirstTargetSpecific`, ids in the auxiliary range index the auxiliary
table at `id − FirstTargetSpecific − T`; `id = 0` and
`id ≥ C + T + A + 1` signal `InvalidBuiltinID`; `id = C` and
`id = FirstTargetSpecific` both succeed, returning the last core and first
primary-target descriptors respectively, which are distinct results
whenever those table entries differ. -/
theorem resolve_bounds_and_segments (ctx : Context) (ID : Nat) :
    ctx.getRecord 0 = .error .InvalidBuiltinID ∧
    (ctx.firstTSBuiltin + ctx.TSRecords.length + ctx.AuxTSRecords.length ≤ ID →
      ctx.getRecord ID = .error .InvalidBuiltinID) ∧
    (1 ≤ ID → ID < ctx.firstTSBuiltin →
      ∃ r, ctx.BuiltinInfo[ID - 1]? = some r ∧ ctx.getRecord ID = .ok r) ∧
    (ctx.firstTSBuiltin ≤ ID → ID < ctx.firstTSBuiltin + ctx.TSRecords.length →
      ∃ r, ctx.TSRecords[ID - ctx.firstTSBuiltin]? = some r ∧ ctx.getRecord ID = .ok r) ∧
    (ctx.firstTSBuiltin + ctx.TSRecords.length ≤ ID →
      ID < ctx.firstTSBuiltin + ctx.TSRecords.length + ctx.AuxTSRecords.length →
      ∃ r, ctx.AuxTSRecords[ID - ctx.firstTSBuiltin - ctx.TSRecords.length]? = some r ∧
        ctx.getRecord ID = .ok r) ∧
    (1 ≤ ctx.BuiltinInfo.length → 1 ≤ ctx.TSRecords.length →
      ∃ rc rt, ctx.BuiltinInfo[ctx.BuiltinInfo.length - 1]? = some rc ∧
        ctx.TSRecords[(0 : Nat)]? = some rt ∧
        ctx.getRecord ctx.BuiltinInfo.length = .ok rc ∧
        ctx.getRecord ctx.firstTSBuiltin = .ok rt ∧
        (rc ≠ rt →
          ctx.getRecord ctx.BuiltinInfo.length ≠ ctx.getRecord ctx.firstTSBuiltin)) := by
  refine ⟨getRecord_zero ctx, getRecord_oob ctx ID, getRecord_core ctx ID,
    getRecord_ts ctx ID, getRecord_aux ctx ID, ?_⟩
  intro hC hT
  obtain ⟨rc, hc1, hc2⟩ := getRecord_core ctx ctx.BuiltinInfo.length hC
    (by unfold Context.firstTSBuiltin; omega)
  obtain ⟨rt, ht1, ht2⟩ := getRecord_ts ctx ctx.firstTSBuiltin le_rfl (by omega)
  refine ⟨rc, rt, hc1, by simpa using ht1, hc2, ht2, ?_⟩
  intro hne heq
  rw [hc2, ht2] at heq
  injection heq with heq2
  exact hne heq2

/-- Witness for C1 at concrete contexts (the §8 scenario and a context
with an auxiliary table). -/
theorem resolve_bounds_and_segments_witness :
    exCtx.getRecord 0 = .error .InvalidBuiltinID ∧
    exCtx.getRecord 4 = .error .InvalidBuiltinID ∧
    (∃ r, exCtx.BuiltinInfo[2 - 1]? = some r ∧ exCtx.getRecord 2 = .ok r) ∧
    (∃ r, exCtx.TSRecords[(0 : Nat)]? = some r ∧ exCtx.getRecord 3 = .ok r) ∧
    (∃ r, exCtxAux.AuxTSRecords[(0 : Nat)]? = some r ∧ exCtxAux.getRecord 3 = .ok r) ∧
    (∃ rc rt, exCtx.BuiltinInfo[exCtx.BuiltinInfo.length - 1]? = some rc ∧
      exCtx.TSRecords[(0 : Nat)]? = some rt ∧
      exCtx.getRecord exCtx.BuiltinInfo.length = .ok rc ∧
      exCtx.getRecord exCtx.firstTSBuiltin = .ok rt ∧
      (rc ≠ rt →
        exCtx.getRecord exCtx.BuiltinInfo.length ≠ exCtx.getRecord exCtx.firstTSBuiltin)) := by
  have h4 := resolve_bounds_and_segments exCtx 4
  have h2 := resolve_bounds_and_segments exCtx 2
  have h3 := resolve_bounds_and_segments exCtx 3
  have ha := resolve_bounds_and_segments exCtxAux 3
  exact ⟨h4.1, h4.2.1 (by decide), h2.2.2.1 (by decide) (by decide),
    h3.2.2.2.1 (by decide) (by decide), ha.2.2.2.2.1 (by decide) (by decide),
    h2.2.2.2.2.2 (by decide) (by decide)⟩

/-- C2 counterexample: at the non-auxiliary ID 1 of the §8 context
(`isAuxBuiltinID` is false there), the source's `getAuxBuiltinID` does not
signal `InvalidBuiltinID`: it has no error outcome at all and returns the
ordinary value `1 − T = 0`, whereas the spec-following
`translateToAuxiliaryLocalIDSpec` signals `InvalidBuiltinID`. -/
theorem translate_nonaux_counterexample :
    exCtx.isAuxBuiltinID 1 = false ∧ exCtx.getAuxBuiltinID 1 = 0 ∧
    exCtx.translateToAuxiliaryLocalIDSpec 1 = .error .InvalidBuiltinID := by
  refine ⟨rfl, ?_, rfl⟩
  rw [getAuxBuiltinID_eq_sub exCtx 1 (by decide) (by decide)]
  decide

/-- C2 amended: `getAuxBuiltinID` performs no validity check and never
signals `InvalidBuiltinID`; for every ID (auxiliary or not) it totally
returns `ID − T` in 32-bit unsigned arithmetic, so adding `T` back
recovers the ID modulo `2 ^ 32`; on auxiliary IDs the subtraction is
exact.  Validity (`isAuxiliary(id)`) is only the caller's precondition. -/
theorem translate_total_no_check (ctx : Context) (ID : Nat)
    (hID : ID < uintMod) :
    (ctx.getAuxBuiltinID ID + ctx.TSRecords.length) % uintMod = ID ∧
    (ctx.isAuxBuiltinID ID = true →
      ctx.getAuxBuiltinID ID = ID - ctx.TSRecords.length) := by
  constructor
  · unfold Context.getAuxBuiltinID
    rw [uintMod_eq] at hID ⊢
    omega
  · intro h
    simp only [Context.isAuxBuiltinID, decide_eq_true_eq] at h
    have := firstTSBuiltin_pos ctx
    exact getAuxBuiltinID_eq_sub ctx ID hID (by omega)

/-- Witness for the amended C2 at the §8 context and the non-auxiliary
ID 1. -/
theorem translate_total_no_check_witness :
    (exCtx.getAuxBuiltinID 1 + exCtx.TSRecords.length) % uintMod = 1 ∧
    exCtxAux.getAuxBuiltinID 3 = 3 - exCtxAux.TSRecords.length := by
  exact ⟨(translate_total_no_check exCtx 1 (by decide)).1,
    (translate_total_no_check exCtxAux 3 (by decide)).2 (by decide)⟩

/-- C3: on auxiliary IDs, `getAuxBuiltinID` inverts the shift:
`getAuxBuiltinID(id) + T = id`, and indexing the auxiliary table directly
at `localID − FirstTargetSpecific` yields the same descriptor that
`resolve(id)` yields. -/
theorem translate_aux_roundtrip (ctx : Context) (ID : Nat) (hID : ID < uintMod)
    (haux : ctx.isAuxBuiltinID ID = true) :
    ctx.getAuxBuiltinID ID + ctx.TSRecords.length = ID ∧
    (∀ r, ctx.getRecord ID = .ok r →
      ctx.AuxTSRecords[ctx.getAuxBuiltinID ID - ctx.firstTSBuiltin]? = some r) := by
  have haux2 : ctx.firstTSBuiltin + ctx.TSRecords.length ≤ ID := by
    simpa [Context.isAuxBuiltinID] using haux
  have hfts := firstTSBuiltin_pos ctx
  have hsub := getAuxBuiltinID_eq_sub ctx ID hID (by omega)
  refine ⟨by omega, ?_⟩
  intro r hr
  by_cases hrange : ID < ctx.firstTSBuiltin + ctx.TSRecords.length + ctx.AuxTSRecords.length
  · obtain ⟨r2, hg, he⟩ := getRecord_aux ctx ID haux2 hrange
    have heq := he.symm.trans hr
    injection heq with heq2
    rw [hsub, show ID - ctx.TSRecords.length - ctx.firstTSBuiltin
        = ID - ctx.firstTSBuiltin - ctx.TSRecords.length from by omega, hg, heq2]
  · rw [getRecord_oob ctx ID (by omega)] at hr
    cases hr

/-- Witness for C3 at the auxiliary ID 3 of the context with an auxiliary
table. -/
theorem translate_aux_roundtrip_witness :
    exCtxAux.getAuxBuiltinID 3 + exCtxAux.TSRecords.length = 3 ∧
    exCtxAux.AuxTSRecords[exCtxAux.getAuxBuiltinID 3 - exCtxAux.firstTSBuiltin]? =
      some memcpyInfo := by
  have h := translate_aux_roundtrip exCtxAux 3 (by decide) (by decide)
  exact ⟨h.1, h.2 memcpyInfo rfl⟩

/-- C6: `isTSBuiltin(id)` holds iff `id ≥ FirstTSBuiltin` and
`isAuxBuiltinID(id)` holds iff `id ≥ FirstTSBuiltin + T`; the two tests
agree with the table `resolve(id)` reads from: a successful resolve comes
from the core table when `isTSBuiltin` is false, from the primary target
table when target-specific but not auxiliary, and from the auxiliary
table when auxiliary. -/
theorem segment_tests_consistent (ctx : Context) (ID : Nat) :
    (ctx.isTSBuiltin ID = true ↔ ctx.firstTSBuiltin ≤ ID) ∧
    (ctx.isAuxBuiltinID ID = true ↔ ctx.firstTSBuiltin + ctx.TSRecords.length ≤ ID) ∧
    (∀ r, ctx.getRecord ID = .ok r →
      (ctx.isTSBuiltin ID = false → ctx.BuiltinInfo[ID - 1]? = some r) ∧
      (ctx.isTSBuiltin ID = true → ctx.isAuxBuiltinID ID = false →
        ctx.TSRecords[ID - ctx.firstTSBuiltin]? = some r) ∧
      (ctx.isAuxBuiltinID ID = true →
        ctx.AuxTSRecords[ID - ctx.firstTSBuiltin - ctx.TSRecords.length]? = some r)) := by
  refine ⟨by simp [Context.isTSBuiltin], by simp [Context.isAuxBuiltinID], ?_⟩
  intro r hr
  have hnz : ID ≠ 0 := by
    intro h0
    rw [h0, getRecord_zero] at hr
    cases hr
  have hlt : ID < ctx.firstTSBuiltin + ctx.TSRecords.length + ctx.AuxTSRecords.length := by
    by_contra hge
    rw [getRecord_oob ctx ID (by omega)] at hr
    cases hr
  refine ⟨?_, ?_, ?_⟩
  · intro hts
    simp only [Context.isTSBuiltin, decide_eq_false_iff_not, not_le] at hts
    obtain ⟨r2, hg, he⟩ := getRecord_core ctx ID (by omega) hts
    have heq := he.symm.trans hr
    injection heq with heq2
    rw [hg, heq2]
  · intro hts haux
    simp only [Context.isTSBuiltin, decide_eq_true_eq] at hts
    simp only [Context.isAuxBuiltinID, decide_eq_false_iff_not, not_le] at haux
    obtain ⟨r2, hg, he⟩ := getRecord_ts ctx ID hts haux
    have heq := he.symm.trans hr
    injection heq with heq2
    rw [hg, heq2]
  · intro haux
    simp only [Context.isAuxBuiltinID, decide_eq_true_eq] at haux
    obtain ⟨r2, hg, he⟩ := getRecord_aux ctx ID haux hlt
    have heq := he.symm.trans hr
    injection heq with heq2
    rw [hg, heq2]

/-- Witness for C6 at the three segments of the auxiliary-table context. -/
theorem segment_tests_consistent_witness :
    (exCtxAux.isTSBuiltin 1 = true ↔ exCtxAux.firstTSBuiltin ≤ 1) ∧
    exCtxAux.BuiltinInfo[1 - 1]? = some absInfo ∧
    exCtxAux.TSRecords[2 - exCtxAux.firstTSBuiltin]? = some pauseInfo ∧
    exCtxAux.AuxTSRecords[3 - exCtxAux.firstTSBuiltin - exCtxAux.TSRecords.length]? =
      some memcpyInfo := by
  have h1 := segment_tests_consistent exCtxAux 1
  have h2 := segment_tests_consistent exCtxAux 2
  have h3 := segment_tests_consistent exCtxAux 3
  exact ⟨h1.1, (h1.2.2 absInfo rfl).1 (by decide),
    (h2.2.2 pauseInfo rfl).2.1 (by decide) (by decide),
    (h3.2.2 memcpyInfo rfl).2.2 (by decide)⟩

/-- C10: every auxiliary ID is in particular target-specific: the
auxiliary threshold `FirstTSBuiltin + T` is never below `FirstTSBuiltin`,
so `isAuxBuiltinID` implies `isTSBuiltin`. -/
theorem aux_within_target_specific (ctx : Context) (ID : Nat)
    (h : ctx.isAuxBuiltinID ID = true) : ctx.isTSBuiltin ID = true := by
  simp only [Context.isAuxBuiltinID, decide_eq_true_eq] at h
  simp only [Context.isTSBuiltin, decide_eq_true_eq]
  omega

/-- Witness for C10 at the auxiliary ID 3. -/
theorem aux_within_target_specific_witness : exCtxAux.isTSBuiltin 3 = true :=
  aux_within_target_specific exCtxAux 3 (by decide)

theorem except_map_ok {α β ε : Type} (f : α → β) (a : α) :
    (Except.ok a : Except ε α).map f = .ok (f a) := rfl

/-- C4: each of the eleven attribute predicates holds exactly when its
marker character occurs anywhere in the descriptor's attribute string —
membership alone, so position, order and duplication are irrelevant and
unrecognized characters make no predicate true. -/
theorem attribute_markers (ctx : Context) (ID : Nat) (r : Info)
    (hr : ctx.getRecord ID = .ok r) :
    ctx.isPure ID = .ok (decide ('U' ∈ r.Attributes)) ∧
    ctx.isConst ID = .ok (decide ('c' ∈ r.Attributes)) ∧
    ctx.isConstWithoutErrno ID = .ok (decide ('e' ∈ r.Attributes)) ∧
    ctx.isNoThrow ID = .ok (decide ('n' ∈ r.Attributes)) ∧
    ctx.isNoReturn ID = .ok (decide ('r' ∈ r.Attributes)) ∧
    ctx.isReturnsTwice ID = .ok (decide ('j' ∈ r.Attributes)) ∧
    ctx.isUnevaluated ID = .ok (decide ('u' ∈ r.Attributes)) ∧
    ctx.isLibFunction ID = .ok (decide ('F' ∈ r.Attributes)) ∧
    ctx.isPredefinedLibFunction ID = .ok (decide ('f' ∈ r.Attributes)) ∧
    ctx.isPredefinedRuntimeFunction ID = .ok (decide ('i' ∈ r.Attributes)) ∧
    ctx.hasCustomTypechecking ID = .ok (decide ('t' ∈ r.Attributes)) := by
  simp only [Context.isPure, Context.isConst, Context.isConstWithoutErrno,
    Context.isNoThrow, Context.isNoReturn, Context.isReturnsTwice, Context.isUnevaluated,
    Context.isLibFunction, Context.isPredefinedLibFunction,
    Context.isPredefinedRuntimeFunction, Context.hasCustomTypechecking, hr,
    except_map_ok, strchr_isSome, and_self]

/-- Witness for C4 at `__builtin_abs` (attributes `"nc"`): const and
noThrow hold, pure and noReturn do not. -/
theorem attribute_markers_witness :
    exCtx.isConst 1 = .ok true ∧ exCtx.isNoThrow 1 = .ok true ∧
    exCtx.isPure 1 = .ok false ∧ exCtx.isNoReturn 1 = .ok false := by
  have h := attribute_markers exCtx 1 absInfo rfl
  exact ⟨h.2.1, h.2.2.2.1, h.1, h.2.2.2.2.1⟩

/-- C5: the language gate is the conjunction of the §4.2 rule: the mask
must include the active dialect, a GNU-requiring mask needs GNU mode, an
MS-requiring mask needs MS mode, and an OpenCL-only mask needs OpenCL-C
mode; in particular a GNU-only builtin is disabled with GNU mode off even
when the dialect matches, and an OpenCL-only builtin is disabled when
OpenCL-C mode is off (as under plain C/C++ dialects). -/
theorem language_gate_rule (mask : Nat) (opts : LangOptions) :
    (Context.builtinIsSupported mask opts = true ↔
      (mask &&& opts.dialect.bit ≠ 0 ∧
       (mask &&& GNU_LANG ≠ 0 → opts.gnuMode = true) ∧
       (mask &&& MS_LANG ≠ 0 → opts.microsoftExt = true) ∧
       (mask = OCLC_LANG → opts.openCL = true))) ∧
    (mask &&& opts.dialect.bit ≠ 0 → mask &&& GNU_LANG ≠ 0 → opts.gnuMode = false →
      Context.builtinIsSupported mask opts = false) ∧
    (mask = OCLC_LANG → opts.openCL = false →
      Context.builtinIsSupported mask opts = false) := by
  have hiff : Context.builtinIsSupported mask opts = true ↔
      (mask &&& opts.dialect.bit ≠ 0 ∧
       (mask &&& GNU_LANG ≠ 0 → opts.gnuMode = true) ∧
       (mask &&& MS_LANG ≠ 0 → opts.microsoftExt = true) ∧
       (mask = OCLC_LANG → opts.openCL = true)) := by
    unfold Context.builtinIsSupported
    simp only [Bool.and_eq_true, Bool.or_eq_true, decide_eq_true_eq]
    tauto
  refine ⟨hiff, ?_, ?_⟩
  · intro _ hg hgm
    apply Bool.eq_false_iff.mpr
    intro htrue
    have hc := (hiff.mp htrue).2.1 hg
    rw [hc] at hgm
    cases hgm
  · intro ho hoc
    apply Bool.eq_false_iff.mpr
    intro htrue
    have hc := (hiff.mp htrue).2.2.2 ho
    rw [hc] at hoc
    cases hoc

/-- Witness for C5: a GNU-only mask under a C dialect is disabled with GNU
mode off and enabled with it on; an OpenCL-only mask is disabled under a
plain C dialect. -/
theorem language_gate_rule_witness :
    Context.builtinIsSupported ALL_GNU_LANGUAGES
      ⟨Dialect.cDialect, false, false, false⟩ = false ∧
    Context.builtinIsSupported OCLC_LANG ⟨Dialect.cDialect, false, false, false⟩ = false ∧
    Context.builtinIsSupported ALL_GNU_LANGUAGES
      ⟨Dialect.cDialect, true, false, false⟩ = true := by
  refine ⟨(language_gate_rule _ _).2.1 (by decide) (by decide) rfl,
    (language_gate_rule _ _).2.2 rfl rfl,
    (language_gate_rule _ _).1.mpr
      ⟨by decide, fun _ => rfl, fun h => absurd (by decide) h, fun h => absurd h (by decide)⟩⟩

/-- C7: `hasPtrArgsOrResult` is decided by the type string alone — true
iff `'*'` occurs in it — and any two resolutions with the same type string
(whatever their attribute strings) give the same answer. -/
theorem ptr_derived_from_type (ctx : Context) (ID : Nat) (r : Info)
    (hr : ctx.getRecord ID = .ok r) :
    ctx.hasPtrArgsOrResult ID = .ok (decide ('*' ∈ r.TypeStr)) ∧
    (∀ (ctx2 : Context) (ID2 : Nat) (r2 : Info),
      ctx2.getRecord ID2 = .ok r2 → r2.TypeStr = r.TypeStr →
      ctx2.hasPtrArgsOrResult ID2 = ctx.hasPtrArgsOrResult ID) := by
  constructor
  · simp only [Context.hasPtrArgsOrResult, hr, except_map_ok, strchr_isSome]
  · intro ctx2 ID2 r2 hr2 hty
    simp only [Context.hasPtrArgsOrResult, hr, hr2, except_map_ok, hty]

/-- Witness for C7: `memcpy`'s type string contains `'*'`, `__builtin_abs`'s
does not, and a descriptor sharing `memcpy`'s type string but not its
attribute string answers the same. -/
theorem ptr_derived_from_type_witness :
    exCtxAux.hasPtrArgsOrResult 3 = .ok true ∧
    exCtxAlt.hasPtrArgsOrResult 1 = exCtxAux.hasPtrArgsOrResult 3 ∧
    exCtx.hasPtrArgsOrResult 1 = .ok false := by
  have h := ptr_derived_from_type exCtxAux 3 memcpyInfo rfl
  have h1 := ptr_derived_from_type exCtx 1 absInfo rfl
  exact ⟨h.1, h.2 exCtxAlt 1 memcpyAltInfo rfl rfl, h1.1⟩

/-- C8: every descriptor-derived query is a pure function of
`resolve(id)` alone: it is unchanged by any sequence of
`initializeBuiltins`/`forgetBuiltin` calls (those touch only the
identifier table, never the descriptor tables), and any two contexts that
resolve `id` to the same record answer every query identically. -/
theorem queries_ignore_registration (ctx : Context) (t : IdentifierTable)
    (acts : List RegistryAction) (ID : Nat) :
    ((Registry.applyAll ⟨ctx, t⟩ acts).ctx.getName ID = ctx.getName ID ∧
     (Registry.applyAll ⟨ctx, t⟩ acts).ctx.getTypeString ID = ctx.getTypeString ID ∧
     (Registry.applyAll ⟨ctx, t⟩ acts).ctx.getHeaderName ID = ctx.getHeaderName ID ∧
     (Registry.applyAll ⟨ctx, t⟩ acts).ctx.getRequiredFeatures ID = ctx.getRequiredFeatures ID ∧
     (Registry.applyAll ⟨ctx, t⟩ acts).ctx.isPure ID = ctx.isPure ID ∧
     (Registry.applyAll ⟨ctx, t⟩ acts).ctx.isConst ID = ctx.isConst ID ∧
     (Registry.applyAll ⟨ctx, t⟩ acts).ctx.isConstWithoutErrno ID = ctx.isConstWithoutErrno ID ∧
     (Registry.applyAll ⟨ctx, t⟩ acts).ctx.isNoThrow ID = ctx.isNoThrow ID ∧
     (Registry.applyAll ⟨ctx, t⟩ acts).ctx.isNoReturn ID = ctx.isNoReturn ID ∧
     (Registry.applyAll ⟨ctx, t⟩ acts).ctx.isReturnsTwice ID = ctx.isReturnsTwice ID ∧
     (Registry.applyAll ⟨ctx, t⟩ acts).ctx.isUnevaluated ID = ctx.isUnevaluated ID ∧
     (Registry.applyAll ⟨ctx, t⟩ acts).ctx.isLibFunction ID = ctx.isLibFunction ID ∧
     (Registry.applyAll ⟨ctx, t⟩ acts).ctx.isPredefinedLibFunction ID =
       ctx.isPredefinedLibFunction ID ∧
     (Registry.applyAll ⟨ctx, t⟩ acts).ctx.isPredefinedRuntimeFunction ID =
       ctx.isPredefinedRuntimeFunction ID ∧
     (Registry.applyAll ⟨ctx, t⟩ acts).ctx.hasCustomTypechecking ID =
       ctx.hasCustomTypechecking ID ∧
     (Registry.applyAll ⟨ctx, t⟩ acts).ctx.hasPtrArgsOrResult ID = ctx.hasPtrArgsOrResult ID) ∧
    (∀ ctx2 : Context, ctx2.getRecord ID = ctx.getRecord ID →
      (ctx2.getName ID = ctx.getName ID ∧
       ctx2.getTypeString ID = ctx.getTypeString ID ∧
       ctx2.getHeaderName ID = ctx.getHeaderName ID ∧
       ctx2.getRequiredFeatures ID = ctx.getRequiredFeatures ID ∧
       ctx2.isPure ID = ctx.isPure ID ∧
       ctx2.isConst ID = ctx.isConst ID ∧
       ctx2.isConstWithoutErrno ID = ctx.isConstWithoutErrno ID ∧
       ctx2.isNoThrow ID = ctx.isNoThrow ID ∧
       ctx2.isNoReturn ID = ctx.isNoReturn ID ∧
       ctx2.isReturnsTwice ID = ctx.isReturnsTwice ID ∧
       ctx2.isUnevaluated ID = ctx.isUnevaluated ID ∧
       ctx2.isLibFunction ID = ctx.isLibFunction ID ∧
       ctx2.isPredefinedLibFunction ID = ctx.isPredefinedLibFunction ID ∧
       ctx2.isPredefinedRuntimeFunction ID = ctx.isPredefinedRuntimeFunction ID ∧
       ctx2.hasCustomTypechecking ID = ctx.hasCustomTypechecking ID ∧
       ctx2.hasPtrArgsOrResult ID = ctx.hasPtrArgsOrResult ID)) := by
  have hc : (Registry.applyAll ⟨ctx, t⟩ acts).ctx = ctx := applyAll_ctx ⟨ctx, t⟩ acts
  constructor
  · rw [hc]
    exact ⟨rfl, rfl, rfl, rfl, rfl, rfl, rfl, rfl, rfl, rfl, rfl, rfl, rfl, rfl, rfl, rfl⟩
  · intro ctx2 h2
    simp only [Context.getName, Context.getTypeString, Context.getHeaderName,
      Context.getRequiredFeatures, Context.isPure, Context.isConst,
      Context.isConstWithoutErrno, Context.isNoThrow, Context.isNoReturn,
      Context.isReturnsTwice, Context.isUnevaluated, Context.isLibFunction,
      Context.isPredefinedLibFunction, Context.isPredefinedRuntimeFunction,
      Context.hasCustomTypechecking, Context.hasPtrArgsOrResult, h2,
      eq_self_iff_true, and_self]

/-- Witness for C8: after an `initializeBuiltins` and a `forgetBuiltin`,
`getName` answers as before, and a different context resolving ID 1 to
the same record answers the same. -/
theorem queries_ignore_registration_witness :
    (Registry.applyAll ⟨exCtx, ⟨[]⟩⟩
        [RegistryAction.initAll optsGnuC, RegistryAction.forgetOne 1]).ctx.getName 1 =
      exCtx.getName 1 ∧
    exCtxAux.getName 1 = exCtx.getName 1 := by
  have h := queries_ignore_registration exCtx ⟨[]⟩
    [RegistryAction.initAll optsGnuC, RegistryAction.forgetOne 1] 1
  exact ⟨h.1.1, (h.2 exCtxAux rfl).1⟩

/-- C9: starting from an empty identifier table, registering the enabled
builtins and then forgetting every registered ID leaves no builtin tag
(round trip to empty); forgetting a valid ID that carries no tag is a
no-op, not an error. -/
theorem registration_roundtrip (ctx : Context) (opts : LangOptions) :
    ctx.forgetAll (ctx.initializeBuiltins ⟨[]⟩ opts).registeredIDs
      (ctx.initializeBuiltins ⟨[]⟩ opts) = .ok ⟨[]⟩ ∧
    (∀ id t, 1 ≤ id → id ≤ ctx.totalSize → id ∉ t.registeredIDs →
      ctx.forgetBuiltin id t = .ok t) := by
  constructor
  · apply forgetAll_empty
    · intro id hid
      unfold IdentifierTable.registeredIDs at hid
      obtain ⟨p, hp, hpe⟩ := List.mem_map.mp hid
      have hrange := initTags_range ctx opts p hp
      omega
    · intro p hp
      exact List.mem_map_of_mem Prod.snd hp
  · intro id t h1 h2 h3
    rw [Context.forgetBuiltin, if_pos ⟨h1, h2⟩, untag_of_not_registered t id h3]

/-- Witness for C9 at the §8 scenario context with GNU mode on. -/
theorem registration_roundtrip_witness :
    exCtx.forgetAll (exCtx.initializeBuiltins ⟨[]⟩ optsGnuC).registeredIDs
      (exCtx.initializeBuiltins ⟨[]⟩ optsGnuC) = .ok ⟨[]⟩ ∧
    exCtx.forgetBuiltin 2 ⟨[]⟩ = .ok ⟨[]⟩ := by
  have h := registration_roundtrip exCtx optsGnuC
  refine ⟨h.1, h.2 2 ⟨[]⟩ (by decide) (by decide) ?_⟩
  simp [IdentifierTable.registeredIDs]

end Builtin

end Clang
